import Mathlib

/-!
Verification development for the Bessa Lunch Home Assistant integration.

Shallow embedding of `custom_components/bessa_lunch/bessa_api.py`,
`sensor.py` and `__init__.py`.  HTTP traffic is modelled by explicit
response scripts: each network request the client makes consumes the head
of a script list, so the recursive 401-retry in the source becomes
structural recursion on the remaining script.  Response bodies are typed
records covering exactly the JSON fields the code reads; a field read via
`.get(key, default)` whose default is applied at the read site is kept as
an `Option` with the default applied in the embedded function, while
`order.get("date", "")` is modelled as a plain `String` where `""` stands
for a missing date (an exact quotient of the Python behaviour).
-/

namespace BessaLunch

/-- One entry of an order's state history; `.get("state")` may be absent. -/
structure StateEntry where
  state : Option Int
  timestamp : Option String
deriving DecidableEq, Repr

/-- An order as read by the client and the sensor: `.get("date", "")`
(missing date becomes `""`) and `.get("states", [])`. -/
structure Order where
  id : Nat
  date : String
  states : List StateEntry
deriving DecidableEq, Repr

/-- One page of the paginated orders endpoint: `results` and the `next` link. -/
structure OrdersPage where
  results : List Order
  next : Option String
deriving DecidableEq, Repr

/-- The outcome of one HTTP request on the orders endpoint: a status with a
parsed body, or a transport/parse exception. -/
inductive FetchResp where
  | resp (status : Nat) (body : OrdersPage)
  | exn
deriving DecidableEq, Repr

/-- Body of a login response: the `key` token field on success, the three
validation-error fields consulted by the 400 branch, and `reprText`
standing for Python's `str(error_data)` fallback. -/
structure AuthBody where
  key : Option String
  non_field_errors : Option (List String)
  email : Option (List String)
  password : Option (List String)
  reprText : String
deriving DecidableEq, Repr

/-- One HTTP response of the login endpoint, or a transport exception. -/
inductive AuthResp where
  | resp (status : Nat) (body : AuthBody)
  | exn
deriving DecidableEq, Repr

/-- Result of `authenticate`: the returned boolean, the client's `_token`
field after the call (given the token held before), and the message logged
by the 400 validation branch (other branches log other text, not modelled). -/
structure AuthResult where
  success : Bool
  token : Option String
  validationMsg : Option String
deriving DecidableEq, Repr

/-- `", ".join(l)` -/
def joinComma (l : List String) : String := String.intercalate ", " l

/-- The 400-branch error message of `authenticate` (bessa_api.py lines 70-82):
`"Login failed: "` followed by the first present field among
`non_field_errors`, `email`, `password`, else `str(error_data)`. -/
def loginErrorMsg (b : AuthBody) : String :=
  "Login failed: " ++
    match b.non_field_errors with
    | some l => joinComma l
    | none =>
      match b.email with
      | some l => joinComma l
      | none =>
        match b.password with
        | some l => joinComma l
        | none => b.reprText

/-- `authenticate` (bessa_api.py lines 37-91).  On 200/201 the token becomes
`data.get("key")` (even when absent or empty) and success requires a truthy
token; on 400 the validation message is built and `False` returned; any
other status or an exception also returns `False`.  The function never
raises: every branch yields an `AuthResult`. -/
def authenticate (prior : Option String) (r : AuthResp) : AuthResult :=
  match r with
  | .resp st body =>
    if st = 200 ∨ st = 201 then
      match body.key with
      | some k => if k = "" then ⟨false, some k, none⟩ else ⟨true, some k, none⟩
      | none => ⟨false, none, none⟩
    else if st = 400 then ⟨false, prior, some (loginErrorMsg body)⟩
    else ⟨false, prior, none⟩
  | .exn => ⟨false, prior, none⟩

/-- Result of the `if not self._token: if not await self.authenticate(): raise`
preamble shared by the read calls: a usable token plus the unconsumed auth
script, an authentication failure (AuthenticationError), or script
exhaustion (model artifact). -/
inductive EnsureRes where
  | ok (t : String) (rest : List AuthResp)
  | failed
  | starve
deriving DecidableEq, Repr

/-- The token-ensuring preamble: a held token is used as-is; otherwise one
login response is consumed and the call proceeds only if `authenticate`
returned success (which by construction carries a non-empty token). -/
def ensureTok (token : Option String) (auths : List AuthResp) : EnsureRes :=
  match token with
  | some t => .ok t auths
  | none =>
    match auths with
    | [] => .starve
    | r :: rest =>
      match authenticate none r with
      | ⟨true, some t, _⟩ => .ok t rest
      | _ => .failed

/-- Outcome of the pagination loop (bessa_api.py lines 132-145). -/
inductive PageOutcome where
  | done (orders : List Order)
  | raised
  | starved
deriving DecidableEq, Repr

/-- The `while next_url:` pagination loop of `get_today_orders`
(bessa_api.py lines 132-145).  A falsy `next` (absent or `""`) ends the
loop; a 200 page appends its `results` and continues with its `next`; any
other status breaks with the orders collected so far; an exception
propagates.  Also returns the list of page URLs requested. -/
def fetchPages : List FetchResp → Option String → List Order → PageOutcome × List String
  | _, none, acc => (.done acc, [])
  | [], some u, acc => if u = "" then (.done acc, []) else (.starved, [u])
  | .exn :: _, some u, acc => if u = "" then (.done acc, []) else (.raised, [u])
  | .resp st body :: rest, some u, acc =>
    if u = "" then (.done acc, [])
    else if st = 200 then
      match fetchPages rest body.next (acc ++ body.results) with
      | (out, urls) => (out, u :: urls)
    else (.done acc, [u])

/-- Outcome of `get_today_orders`: the `{"orders": ...}` payload, a raised
AuthenticationError, a re-raised transport exception, or script exhaustion. -/
inductive OrdersOutcome where
  | ok (orders : List Order)
  | authError
  | raised
  | starved
deriving DecidableEq, Repr

/-- The orders endpoint URL (const.py `BESSA_ORDERS_URL`), recorded for each
base request the client issues. -/
def ordersUrl : String := "https://api.bessa.app/v1/user/orders"

/-- `get_today_orders` (bessa_api.py lines 93-156).  Ensure a token (raising
AuthenticationError when authentication fails); fetch the orders endpoint;
on 200 run the pagination loop; on 401 clear the token and recursively
retry the whole call; on any other status return an empty order list; a
transport exception is logged and re-raised.  Returns the outcome, the
token held afterwards, and every URL requested (base URL per attempt plus
pagination URLs). -/
def get_today_orders : List FetchResp → List AuthResp → Option String →
    OrdersOutcome × Option String × List String
  | [], auths, token =>
    match ensureTok token auths with
    | .starve => (.starved, none, [])
    | .failed => (.authError, none, [])
    | .ok t _ => (.starved, some t, [])
  | .exn :: _, auths, token =>
    match ensureTok token auths with
    | .starve => (.starved, none, [])
    | .failed => (.authError, none, [])
    | .ok t _ => (.raised, some t, [ordersUrl])
  | .resp st body :: rest, auths, token =>
    match ensureTok token auths with
    | .starve => (.starved, none, [])
    | .failed => (.authError, none, [])
    | .ok t auths' =>
      if st = 200 then
        match fetchPages rest body.next body.results with
        | (.done orders, urls) => (.ok orders, some t, ordersUrl :: urls)
        | (.raised, urls) => (.raised, some t, ordersUrl :: urls)
        | (.starved, urls) => (.starved, some t, ordersUrl :: urls)
      else if st = 401 then
        match get_today_orders rest auths' none with
        | (out, tok, urls) => (out, tok, ordersUrl :: urls)
      else (.ok [], some t, [ordersUrl])

/-- `_is_cancelled` (bessa_api.py lines 158-165): the first state-history
entry with code 9 marks a cancelled order; an empty history is not cancelled. -/
def is_cancelled (o : Order) : Bool :=
  match o.states with
  | s :: _ => decide (s.state = some 9)
  | [] => false

/-- `_is_order_for_date` (bessa_api.py lines 167-176): a falsy (empty) date
never matches; otherwise compare the 10-character `YYYY-MM-DD` prefix. -/
def is_order_for_date (o : Order) (dateStr : String) : Bool :=
  if o.date = "" then false
  else decide (o.date.take 10 = dateStr)

/-- Outcome of `get_order_for_date`: `{"orders": [...]}` on 200, the bare
`{}` returned on every other status, a raised AuthenticationError, a
re-raised transport exception, or script exhaustion. -/
inductive DateOrdersOutcome where
  | ok (orders : List Order)
  | emptyResult
  | authError
  | raised
  | starved
deriving DecidableEq, Repr

/-- `get_order_for_date` (bessa_api.py lines 178-207).  Ensure a token;
fetch the orders endpoint once (no pagination); on 200 filter client-side
with `_is_order_for_date`; on ANY other status — including 401 — log and
return `{}` leaving the token untouched; a transport exception re-raises. -/
def get_order_for_date (resps : List FetchResp) (auths : List AuthResp)
    (token : Option String) (date : String) : DateOrdersOutcome × Option String :=
  match ensureTok token auths with
  | .starve => (.starved, none)
  | .failed => (.authError, none)
  | .ok t _ =>
    match resps with
    | [] => (.starved, some t)
    | .exn :: _ => (.raised, some t)
    | .resp st body :: _ =>
      if st = 200 then
        (.ok (body.results.filter (fun o => is_order_for_date o date)), some t)
      else (.emptyResult, some t)

/-! ### Python `int(str)` parsing, used for `available_amount` -/

/-- Drop ASCII whitespace from both ends of a character list, as Python's
`int(str)` strips its argument. -/
def trimChars (l : List Char) : List Char :=
  ((l.dropWhile Char.isWhitespace).reverse.dropWhile Char.isWhitespace).reverse

/-- Digits continuing a number, allowing a single `_` between digits as
Python's integer literal grammar does. -/
def digitsCore : List Char → Nat → Option Nat
  | [], acc => some acc
  | c :: cs, acc =>
    if c.isDigit then digitsCore cs (acc * 10 + (c.toNat - 48))
    else if c = '_' then
      match cs with
      | c2 :: cs2 =>
        if c2.isDigit then digitsCore cs2 (acc * 10 + (c2.toNat - 48)) else none
      | [] => none
    else none

/-- The digit part of a Python integer string: at least one digit. -/
def digitsStart : List Char → Option Nat
  | [] => none
  | c :: cs => if c.isDigit then digitsCore cs (c.toNat - 48) else none

/-- Signed integer after stripping: optional `+`/`-`, then digits. -/
def pyIntCore : List Char → Option Int
  | [] => none
  | c :: cs =>
    if c = '+' then (digitsStart cs).map (fun n => (n : Int))
    else if c = '-' then (digitsStart cs).map (fun n => -(n : Int))
    else (digitsStart (c :: cs)).map (fun n => (n : Int))

/-- Python `int(s)` for a base-10 string, as `Option`: surrounding ASCII
whitespace is stripped, an optional sign is allowed, digits may be grouped
with single underscores; `none` where Python raises `ValueError`
(non-ASCII digit forms are not modelled). -/
def pyInt (s : String) : Option Int := pyIntCore (trimChars s.toList)

/-! ### Menu fetch -/

/-- A raw menu item as delivered by the server; every field the code reads
via `.get` is optional, with the read-site default applied during
normalization.  `available_amount` is a decimal-as-string or null. -/
structure MenuItemRaw where
  id : Option Nat
  name : Option String
  description : Option String
  price : Option String
  allergens : Option String
  available_amount : Option String
deriving DecidableEq, Repr

/-- A raw menu category: `.get("name", "")` and `.get("items", [])`. -/
structure MenuCategory where
  name : Option String
  items : Option (List MenuItemRaw)
deriving DecidableEq, Repr

/-- Body of a menu response: the `results` category list. -/
structure MenuPage where
  results : List MenuCategory
deriving DecidableEq, Repr

/-- One HTTP response of the menu endpoint, or a transport exception. -/
inductive MenuResp where
  | resp (status : Nat) (body : MenuPage)
  | exn
deriving DecidableEq, Repr

/-- A normalized menu item as appended by `get_menu`'s 200 branch
(bessa_api.py lines 248-256). -/
structure MenuItem where
  id : Option Nat
  name : String
  description : String
  price : String
  allergens : String
  available : Option Int
  category : String
deriving DecidableEq, Repr

/-- Normalization of one raw menu item (bessa_api.py lines 238-256): the
`.get` defaults, and `available` derived from `available_amount` by the
truthiness-guarded `int()` parse — falsy (`null` or `""`) and unparseable
values become `null`, and the `try/except` means no exception escapes. -/
def normItem (catName : String) (it : MenuItemRaw) : MenuItem :=
  { id := it.id
  , name := it.name.getD "Unknown"
  , description := it.description.getD ""
  , price := it.price.getD "0"
  , allergens := it.allergens.getD ""
  , available :=
      match it.available_amount with
      | none => none
      | some s => if s = "" then none else pyInt s
  , category := catName }

/-- The nested `for category in results: for item in items:` flattening of
`get_menu`'s 200 branch (bessa_api.py lines 235-256). -/
def menuItems (results : List MenuCategory) : List MenuItem :=
  results.flatMap (fun c => (c.items.getD []).map (normItem (c.name.getD "")))

/-- Outcome of `get_menu`: the categories/items payload (the `raw_data`
echo of the 200 branch is not modelled), a raised AuthenticationError
(possible only from the pre-`try` token check), or script exhaustion. -/
inductive MenuOutcome where
  | ok (categories : List MenuCategory) (items : List MenuItem)
  | authError
  | starved
deriving DecidableEq, Repr

/-- `get_menu` (bessa_api.py lines 209-272).  The token check sits BEFORE
the `try`, so its AuthenticationError escapes; everything else is inside
the `try`, whose `except Exception` returns the empty result — in
particular the recursive 401 retry: if that retry's own token check raises
AuthenticationError, this level's handler catches it and yields the empty
result.  Any other status or a transport exception also yields the empty
result. -/
def get_menu : List MenuResp → List AuthResp → Option String → MenuOutcome × Option String
  | [], auths, token =>
    match ensureTok token auths with
    | .starve => (.starved, token)
    | .failed => (.authError, none)
    | .ok t _ => (.starved, some t)
  | .exn :: _, auths, token =>
    match ensureTok token auths with
    | .starve => (.starved, token)
    | .failed => (.authError, none)
    | .ok t _ => (.ok [] [], some t)
  | .resp st body :: rest, auths, token =>
    match ensureTok token auths with
    | .starve => (.starved, token)
    | .failed => (.authError, none)
    | .ok t auths' =>
      if st = 200 then (.ok body.results (menuItems body.results), some t)
      else if st = 401 then
        match get_menu rest auths' none with
        | (.authError, tk) => (.ok [] [], tk)
        | r => r
      else (.ok [] [], some t)

/-! ### Day projection (sensor.py) -/

/-- `BessaLunchDailyOrderSensor._get_order_for_day` (sensor.py lines
156-173), with the wall-clock target date as an explicit parameter: scan
the order list in order; an order whose date prefix matches is returned
only if its state history is non-empty and its first entry is not code 9;
otherwise the scan continues. -/
def get_order_for_day (orders : List Order) (targetDate : String) : Option Order :=
  match orders with
  | [] => none
  | o :: rest =>
    if o.date.take 10 = targetDate then
      match o.states with
      | s :: _ =>
        if s.state ≠ some 9 then some o else get_order_for_day rest targetDate
      | [] => get_order_for_day rest targetDate
    else get_order_for_day rest targetDate

/-- The matching criterion the per-day projection implements, as a
predicate: date prefix equal to the target and a first state-history entry
present and not code 9. -/
def orderMatch (targetDate : String) (o : Order) : Bool :=
  decide (o.date.take 10 = targetDate) &&
    (match o.states with
     | s :: _ => decide (s.state ≠ some 9)
     | [] => false)

/-! ### Cancel-order service (init module) -/

/-- Modelled from the spec: `cancel_order` is absent from the repository
source — only its caller `handle_cancel_order` exists.  Per the spec it
"issues a cancellation request for the given order id, returns
success/failure boolean, never raises to the caller"; the server's answer
for each order id is abstracted as a function. -/
def cancel_order (server : Nat → Bool) (orderId : Nat) : Bool := server orderId

/-- What the service handler does, observably: log-and-return on a missing
(falsy) `order_id`, refresh the coordinator after a successful
cancellation, or log the failure.  No constructor models an exception —
the handler never raises. -/
inductive CancelAction where
  | loggedMissingParam
  | refreshed (orderId : Nat)
  | loggedFailure (orderId : Nat)
deriving DecidableEq, Repr

/-- `handle_cancel_order` (init module lines 44-59): `call.data.get("order_id")`
then `if not order_id:` (so an absent id, and the falsy id 0, are rejected
with a log line); otherwise the result of `cancel_order` decides between a
coordinator refresh and an error log. -/
def handle_cancel_order (server : Nat → Bool) (callData : Option Nat) : CancelAction :=
  match callData with
  | none => .loggedMissingParam
  | some oid =>
    if oid = 0 then .loggedMissingParam
    else if cancel_order server oid then .refreshed oid
    else .loggedFailure oid

/-! ### Well-formed pagination chains and sample data -/

/-- The `next` link entering a chain of paginated pages, each page given as
its URL together with its `results`. -/
def chainNext : List (String × List Order) → Option String
  | [] => none
  | (u, _) :: _ => some u

/-- The server's responses along a pagination chain: page `i` carries its
`results` and a `next` link to the following page's URL (absent on the
last page). -/
def chainResps : List (String × List Order) → List FetchResp
  | [] => []
  | (_, os) :: rest => FetchResp.resp 200 ⟨os, chainNext rest⟩ :: chainResps rest

/-- A sample accepted order (state history `[{state: 5}]`). -/
def sampleOrder : Order := ⟨1, "2025-06-10T11:30:00Z", [⟨some 5, none⟩]⟩

/-- A sample cancelled order (state history `[{state: 9}]`). -/
def cancelledOrder : Order := ⟨2, "2025-06-10T09:00:00Z", [⟨some 9, none⟩]⟩

/-- A sample order with an empty state history. -/
def noStatesOrder : Order := ⟨3, "2025-06-10T08:00:00Z", []⟩

/-- A login 400 body carrying only an `email` validation error. -/
def emailErrBody : AuthBody := ⟨none, none, some ["This field is required."], none, ""⟩

/-! ## Theorems -/

/-- Unfolding the 401 branch of `get_today_orders`: the token is cleared and
the whole call retried on the remaining script, with one more base request
recorded. -/
theorem get_today_orders_retry (b : OrdersPage) (rest : List FetchResp)
    (auths : List AuthResp) (t : String) :
    get_today_orders (.resp 401 b :: rest) auths (some t)
      = ((get_today_orders rest auths none).1,
         (get_today_orders rest auths none).2.1,
         ordersUrl :: (get_today_orders rest auths none).2.2) := by
  rcases h : get_today_orders rest auths none with ⟨out, tok, urls⟩
  simp [get_today_orders, ensureTok, h]

/-- Unfolding the 401 branch of `get_menu`: the token is cleared and the
call retried; an AuthenticationError raised by the retry is caught by this
level's handler and becomes the empty result. -/
theorem get_menu_retry (bm : MenuPage) (restm : List MenuResp)
    (auths : List AuthResp) (t : String) :
    get_menu (.resp 401 bm :: restm) auths (some t)
      = (match get_menu restm auths none with
         | (.authError, tk) => (.ok [] [], tk)
         | r => r) := by
  simp [get_menu, ensureTok]

/-- With no token held and a failing (400) login response, `get_today_orders`
raises AuthenticationError. -/
theorem get_today_orders_auth_fail (resps : List FetchResp) (ab : AuthBody)
    (auths : List AuthResp) :
    get_today_orders resps (.resp 400 ab :: auths) none = (.authError, none, []) := by
  cases resps with
  | nil => simp [get_today_orders, ensureTok, authenticate]
  | cons r rest => cases r <;> simp [get_today_orders, ensureTok, authenticate]

/-- With no token held and a failing (400) login response, `get_menu`'s
pre-`try` check raises AuthenticationError. -/
theorem get_menu_auth_fail (restm : List MenuResp) (ab : AuthBody)
    (auths : List AuthResp) :
    get_menu restm (.resp 400 ab :: auths) none = (.authError, none) := by
  cases restm with
  | nil => simp [get_menu, ensureTok, authenticate]
  | cons r rest => cases r <;> simp [get_menu, ensureTok, authenticate]

/-- C5: on a 400 login response `authenticate` returns failure (never
raising) with the logged message built from the first present field among
non-field errors, email errors, password errors, in that priority order,
comma-joined with no other field's text; exceptions and other statuses also
yield failure rather than an exception. -/
theorem C5_login_errors :
    ∀ (prior : Option String) (b : AuthBody) (l : List String),
      authenticate prior (.resp 400 b) = ⟨false, prior, some (loginErrorMsg b)⟩
      ∧ (b.non_field_errors = some l → loginErrorMsg b = "Login failed: " ++ joinComma l)
      ∧ (b.non_field_errors = none → b.email = some l →
           loginErrorMsg b = "Login failed: " ++ joinComma l)
      ∧ (b.non_field_errors = none → b.email = none → b.password = some l →
           loginErrorMsg b = "Login failed: " ++ joinComma l)
      ∧ authenticate prior .exn = ⟨false, prior, none⟩
      ∧ (∀ (st : Nat) (b2 : AuthBody), st ≠ 200 → st ≠ 201 →
           (authenticate prior (.resp st b2)).success = false) := by
  intro prior b l
  refine ⟨by simp [authenticate], ?_, ?_, ?_, rfl, ?_⟩
  · intro h; simp [loginErrorMsg, h]
  · intro h1 h2; simp [loginErrorMsg, h1, h2]
  · intro h1 h2 h3; simp [loginErrorMsg, h1, h2, h3]
  · intro st b2 h200 h201
    simp only [authenticate, h200, h201, or_self, if_false]
    by_cases h4 : st = 400 <;> simp [h4]

/-- C5 witness: the spec's end-to-end scenario — a 400 body holding only
`{"email": ["This field is required."]}` yields failure and exactly the
joined email error text. -/
theorem C5_login_errors_witness :
    authenticate none (.resp 400 emailErrBody)
      = ⟨false, none, some (loginErrorMsg emailErrBody)⟩
    ∧ loginErrorMsg emailErrBody = "Login failed: This field is required." :=
  ⟨(C5_login_errors none emailErrBody ["This field is required."]).1,
   by
     rw [(C5_login_errors none emailErrBody ["This field is required."]).2.2.1 rfl rfl]
     rfl⟩

/-- C7: date matching uses only the 10-character `YYYY-MM-DD` prefix — for
date strings of length at least 10 sharing a prefix, `_is_order_for_date`,
the projection's matching criterion, and the projection's has-a-match
outcome all agree regardless of the time-of-day suffix. -/
theorem C7_date_prefix_match :
    ∀ (d1 d2 target : String) (idn idn2 : Nat) (sts : List StateEntry) (rest : List Order),
      10 ≤ d1.length → 10 ≤ d2.length → d1.take 10 = d2.take 10 →
      is_order_for_date ⟨idn, d1, sts⟩ target = is_order_for_date ⟨idn2, d2, sts⟩ target
      ∧ orderMatch target ⟨idn, d1, sts⟩ = orderMatch target ⟨idn2, d2, sts⟩
      ∧ (get_order_for_day (⟨idn, d1, sts⟩ :: rest) target).isSome
          = (get_order_for_day (⟨idn2, d2, sts⟩ :: rest) target).isSome := by
  intro d1 d2 target idn idn2 sts rest h1 h2 hpre
  have hne1 : d1 ≠ "" := by intro h; rw [h] at h1; simp at h1
  have hne2 : d2 ≠ "" := by intro h; rw [h] at h2; simp at h2
  refine ⟨?_, ?_, ?_⟩
  · simp [is_order_for_date, hne1, hne2, hpre]
  · simp [orderMatch, hpre]
  · by_cases hc : d1.take 10 = target
    · have hc2 : d2.take 10 = target := hpre ▸ hc
      cases sts with
      | nil => simp [get_order_for_day, hc, hc2]
      | cons s ss =>
        by_cases h9 : s.state = some 9
        · simp [get_order_for_day, hc, hc2, h9]
        · simp [get_order_for_day, hc, hc2, h9]
    · have hc2 : ¬ d2.take 10 = target := fun h => hc (hpre.trans h)
      simp [get_order_for_day, hc, hc2]

/-- C7 witness: two dates on 2025-06-10 differing only in time of day
match the target date identically. -/
theorem C7_date_prefix_match_witness :
    is_order_for_date ⟨1, "2025-06-10T11:30:00Z", []⟩ "2025-06-10"
      = is_order_for_date ⟨2, "2025-06-10T12:00:00Z", []⟩ "2025-06-10" :=
  (C7_date_prefix_match "2025-06-10T11:30:00Z" "2025-06-10T12:00:00Z" "2025-06-10"
    1 2 [] [] (by decide) (by decide) rfl).1

/-- C9: the cancel-order service handler never raises: a missing (or falsy)
`order_id` is only logged; a successful `cancel_order` triggers the
coordinator refresh; a failed one is only logged. -/
theorem C9_cancel_order :
    ∀ (server : Nat → Bool) (oid : Nat),
      handle_cancel_order server none = .loggedMissingParam
      ∧ handle_cancel_order server (some 0) = .loggedMissingParam
      ∧ (oid ≠ 0 → cancel_order server oid = true →
           handle_cancel_order server (some oid) = .refreshed oid)
      ∧ (oid ≠ 0 → cancel_order server oid = false →
           handle_cancel_order server (some oid) = .loggedFailure oid) := by
  intro server oid
  refine ⟨rfl, rfl, ?_, ?_⟩ <;> intro h0 hc <;> simp [handle_cancel_order, h0, hc]

/-- C9 witness: a concrete successful and a concrete failed cancellation. -/
theorem C9_cancel_order_witness :
    handle_cancel_order (fun _ => true) (some 5) = .refreshed 5
    ∧ handle_cancel_order (fun _ => false) (some 5) = .loggedFailure 5 :=
  ⟨(C9_cancel_order (fun _ => true) 5).2.2.1 (by decide) rfl,
   (C9_cancel_order (fun _ => false) 5).2.2.2 (by decide) rfl⟩

/-- C10: an order with an empty state history is skipped by the per-day
projection even when its date matches, and the returned order always has a
non-empty state history. -/
theorem C10_empty_states_skipped :
    ∀ (target : String) (o : Order) (rest orders : List Order) (o2 : Order),
      (o.states = [] → get_order_for_day (o :: rest) target = get_order_for_day rest target)
      ∧ (get_order_for_day orders target = some o2 → o2.states ≠ []) := by
  intro target o rest orders o2
  constructor
  · intro h
    by_cases hc : o.date.take 10 = target <;> simp [get_order_for_day, hc, h]
  · induction orders with
    | nil => intro h; simp [get_order_for_day] at h
    | cons a as ih =>
      intro h
      by_cases hc : a.date.take 10 = target
      · cases hs : a.states with
        | nil =>
          simp only [get_order_for_day, hc, if_true, hs] at h
          exact ih h
        | cons s ss =>
          by_cases h9 : s.state = some 9
          · simp only [get_order_for_day, hc, if_true, hs, h9, ne_eq,
              not_true_eq_false, if_false] at h
            exact ih h
          · simp only [get_order_for_day, hc, if_true, hs, h9, ne_eq,
              not_false_eq_true, if_true, Option.some.injEq] at h
            rw [← h]
            simp [hs]
      · simp only [get_order_for_day, hc, if_false] at h
        exact ih h

/-- C10 witness: the projection skips a date-matching order with no state
entries, and a returned order has state entries. -/
theorem C10_empty_states_skipped_witness :
    get_order_for_day [noStatesOrder, sampleOrder] "2025-06-10"
      = get_order_for_day [sampleOrder] "2025-06-10"
    ∧ sampleOrder.states ≠ [] :=
  ⟨(C10_empty_states_skipped "2025-06-10" noStatesOrder [sampleOrder] [] sampleOrder).1 rfl,
   (C10_empty_states_skipped "2025-06-10" noStatesOrder [] [sampleOrder] sampleOrder).2 rfl⟩

theorem pyInt_empty : pyInt "" = none := rfl

/-- C1 counterexample: the claim says a 401-handling read call "retries the
entire call exactly once; a second 401 received on the retry does not
trigger any further retry".  With responses 401, 401, 200 and always-
succeeding re-authentication, `get_today_orders` issues THREE base requests
and succeeds: the second 401 did trigger a further retry. -/
theorem C1_counterexample :
    get_today_orders
      [.resp 401 ⟨[], none⟩, .resp 401 ⟨[], none⟩, .resp 200 ⟨[sampleOrder], none⟩]
      [.resp 200 ⟨some "t2", none, none, none, ""⟩,
       .resp 200 ⟨some "t3", none, none, none, ""⟩]
      (some "t1")
      = (.ok [sampleOrder], some "t3", [ordersUrl, ordersUrl, ordersUrl])
    ∧ (get_today_orders
        [.resp 401 ⟨[], none⟩, .resp 401 ⟨[], none⟩, .resp 200 ⟨[sampleOrder], none⟩]
        [.resp 200 ⟨some "t2", none, none, none, ""⟩,
         .resp 200 ⟨some "t3", none, none, none, ""⟩]
        (some "t1")).2.2.length = 3 :=
  ⟨rfl, rfl⟩

/-- C1 (amended): on 401 the client clears the stored token and retries the
entire call recursively, without a bound — each further 401 clears the
token and retries again while re-authentication succeeds.  A failed
re-authentication raises AuthenticationError from `get_today_orders`;
`get_menu` raises AuthenticationError only from its initial no-token
check — a re-authentication failure inside its 401 retry is caught by its
own handler and yields the empty menu result. -/
theorem C1_amended :
    ∀ (b : OrdersPage) (bm : MenuPage) (ab : AuthBody) (rest : List FetchResp)
      (restm : List MenuResp) (auths : List AuthResp) (t : String),
      get_today_orders (.resp 401 b :: rest) auths (some t)
        = ((get_today_orders rest auths none).1,
           (get_today_orders rest auths none).2.1,
           ordersUrl :: (get_today_orders rest auths none).2.2)
      ∧ get_today_orders rest (.resp 400 ab :: auths) none = (.authError, none, [])
      ∧ get_menu (.resp 401 bm :: restm) auths (some t)
          = (match get_menu restm auths none with
             | (.authError, tk) => (.ok [] [], tk)
             | r => r)
      ∧ get_menu restm (.resp 400 ab :: auths) none = (.authError, none)
      ∧ get_menu (.resp 401 bm :: restm) (.resp 400 ab :: auths) (some t) = (.ok [] [], none) := by
  intro b bm ab rest restm auths t
  refine ⟨get_today_orders_retry b rest auths t, get_today_orders_auth_fail rest ab auths,
    get_menu_retry bm restm auths t, get_menu_auth_fail restm ab auths, ?_⟩
  rw [get_menu_retry, get_menu_auth_fail]

/-- Pagination along a well-formed chain: starting from the chain's entry
link, the loop fetches exactly the chain's URLs in order and accumulates
every page's results. -/
theorem fetchPages_chain :
    ∀ (l : List (String × List Order)) (extra : List FetchResp) (acc : List Order),
      (∀ p ∈ l, p.1 ≠ "") →
      fetchPages (chainResps l ++ extra) (chainNext l) acc
        = (.done (acc ++ (l.map Prod.snd).flatten), l.map Prod.fst) := by
  intro l
  induction l with
  | nil => intro extra acc h; simp [chainResps, chainNext, fetchPages]
  | cons p rest ih =>
    intro extra acc h
    obtain ⟨u, os⟩ := p
    have hu : u ≠ "" := h (u, os) (by simp)
    have hrest : ∀ q ∈ rest, q.1 ≠ "" := fun q hq => h q (List.mem_cons_of_mem _ hq)
    have hresps : chainResps ((u, os) :: rest)
        = .resp 200 ⟨os, chainNext rest⟩ :: chainResps rest := rfl
    have hnext : chainNext ((u, os) :: rest) = some u := rfl
    rw [hresps, hnext, List.cons_append]
    simp only [fetchPages]
    rw [if_pos trivial, ih extra (acc ++ os) hrest]
    simp
    exact hu

/-- C2: on a 200 orders response followed by a chain of 200 pages, the
assembled order list is the concatenation of all pages' `results` in
order, each `next` link is fetched exactly once (the requested URLs are
exactly the base URL followed by the chain's URLs, duplicate-free when the
chain's are), and a non-200 page response stops the loop with the orders
collected so far. -/
theorem C2_pagination :
    ∀ (t : String) (auths : List AuthResp) (firstResults : List Order)
      (l : List (String × List Order)) (extra : List FetchResp)
      (st : Nat) (b : OrdersPage) (rest2 : List FetchResp) (u2 : String) (acc2 : List Order),
      (∀ p ∈ l, p.1 ≠ "") →
      (ordersUrl :: l.map Prod.fst).Nodup →
      st ≠ 200 → u2 ≠ "" →
      get_today_orders
          (.resp 200 ⟨firstResults, chainNext l⟩ :: (chainResps l ++ extra)) auths (some t)
        = (.ok (firstResults ++ (l.map Prod.snd).flatten), some t, ordersUrl :: l.map Prod.fst)
      ∧ (ordersUrl :: l.map Prod.fst).Nodup
      ∧ fetchPages (.resp st b :: rest2) (some u2) acc2 = (.done acc2, [u2]) := by
  intro t auths firstResults l extra st b rest2 u2 acc2 hne hnd h200 hu2
  refine ⟨?_, hnd, ?_⟩
  · simp [get_today_orders, ensureTok, fetchPages_chain l extra firstResults hne]
  · simp [fetchPages, hu2, h200]

/-- C2 witness: the spec's 3-page scenario — base page plus two linked
pages; the assembled list is all three pages' results and the three
requested URLs are pairwise distinct. -/
theorem C2_pagination_witness :
    get_today_orders
        (.resp 200 ⟨[sampleOrder], chainNext [("u1", [cancelledOrder]), ("u2", [noStatesOrder])]⟩
          :: (chainResps [("u1", [cancelledOrder]), ("u2", [noStatesOrder])] ++ []))
        [] (some "tok")
      = (.ok ([sampleOrder] ++
            ([("u1", [cancelledOrder]), ("u2", [noStatesOrder])].map Prod.snd).flatten),
         some "tok",
         ordersUrl :: [("u1", [cancelledOrder]), ("u2", [noStatesOrder])].map Prod.fst)
    ∧ (ordersUrl :: [("u1", [cancelledOrder]), ("u2", [noStatesOrder])].map Prod.fst).Nodup
    ∧ fetchPages [.resp 500 ⟨[], none⟩] (some "u") [] = (.done [], ["u"]) :=
  C2_pagination "tok" [] [sampleOrder] [("u1", [cancelledOrder]), ("u2", [noStatesOrder])]
    [] 500 ⟨[], none⟩ [] "u" [] (by decide) (by decide) (by decide) (by decide)

/-- C3: the per-day projection returns exactly the first order whose
10-character date prefix equals the target date and whose first
state-history entry exists and is not code 9; a returned order is never
cancelled (first state code 9), and no matching order yields none. -/
theorem C3_order_projection :
    ∀ (targetDate : String) (orders : List Order),
      get_order_for_day orders targetDate = orders.find? (orderMatch targetDate)
      ∧ (∀ o, get_order_for_day orders targetDate = some o →
           orderMatch targetDate o = true
           ∧ ∀ s srest, o.states = s :: srest → s.state ≠ some 9)
      ∧ ((∀ o ∈ orders, orderMatch targetDate o = false) →
           get_order_for_day orders targetDate = none) := by
  intro targetDate orders
  have hfind : get_order_for_day orders targetDate = orders.find? (orderMatch targetDate) := by
    induction orders with
    | nil => simp [get_order_for_day]
    | cons o rest ih =>
      by_cases hc : o.date.take 10 = targetDate
      · cases hs : o.states with
        | nil => simp [get_order_for_day, hc, hs, List.find?, orderMatch, ih]
        | cons s ss =>
          by_cases h9 : s.state = some 9
          · simp [get_order_for_day, hc, hs, h9, List.find?, orderMatch, ih]
          · simp [get_order_for_day, hc, hs, h9, List.find?, orderMatch]
      · simp [get_order_for_day, hc, List.find?, orderMatch, ih]
  refine ⟨hfind, ?_, ?_⟩
  · intro o ho
    rw [hfind] at ho
    have hm := List.find?_some ho
    refine ⟨hm, ?_⟩
    intro s srest hsts
    simp [orderMatch, hsts] at hm
    exact hm.2
  · intro hall
    rw [hfind]
    exact List.find?_eq_none.mpr (fun o ho => by simp [hall o ho])

/-- C3 witness: with a cancelled order and an accepted order both dated
2025-06-10, the projection returns the accepted one, whose first state
entry is not code 9. -/
theorem C3_order_projection_witness :
    orderMatch "2025-06-10" sampleOrder = true
    ∧ (∀ s srest, sampleOrder.states = s :: srest → s.state ≠ some 9) :=
  (C3_order_projection "2025-06-10" [cancelledOrder, sampleOrder]).2.1 sampleOrder rfl

/-- C4 counterexample: the claim says every call that receives a 401 sets
the stored token to absent.  `get_order_for_date` receiving a 401 returns
the bare empty result and leaves the token exactly as it was. -/
theorem C4_counterexample :
    get_order_for_date [.resp 401 ⟨[], none⟩] [] (some "tokT") "2025-01-01"
      = (.emptyResult, some "tokT")
    ∧ (get_order_for_date [.resp 401 ⟨[], none⟩] [] (some "tokT") "2025-01-01").2 ≠ none :=
  ⟨rfl, by decide⟩

/-- C4 (amended): `get_today_orders` and `get_menu` clear the stored token
on a 401 and retry, but `get_order_for_date` does not handle 401 at all —
it takes the generic non-200 branch, logging and returning the empty `{}`
result with the stored token left in place, so the old token can be reused
by a later call. -/
theorem C4_amended :
    ∀ (b : OrdersPage) (bm : MenuPage) (rest : List FetchResp) (restm : List MenuResp)
      (auths : List AuthResp) (t : String) (date : String),
      get_order_for_date (.resp 401 b :: rest) auths (some t) date = (.emptyResult, some t)
      ∧ get_today_orders (.resp 401 b :: rest) auths (some t)
          = ((get_today_orders rest auths none).1,
             (get_today_orders rest auths none).2.1,
             ordersUrl :: (get_today_orders rest auths none).2.2)
      ∧ get_menu (.resp 401 bm :: restm) auths (some t)
          = (match get_menu restm auths none with
             | (.authError, tk) => (.ok [] [], tk)
             | r => r) := by
  intro b bm rest restm auths t date
  refine ⟨?_, get_today_orders_retry b rest auths t, get_menu_retry bm restm auths t⟩
  simp [get_order_for_date, ensureTok]

/-- C6: error handling is asymmetric — a transport exception makes
`get_today_orders` re-raise while `get_menu` returns the empty result, and
a non-200, non-401 status yields an empty result on both paths without an
exception. -/
theorem C6_error_asymmetry :
    ∀ (t : String) (auths : List AuthResp) (rest : List FetchResp)
      (restm : List MenuResp) (st : Nat) (b : OrdersPage) (bm : MenuPage),
      st ≠ 200 → st ≠ 401 →
      get_today_orders (.exn :: rest) auths (some t) = (.raised, some t, [ordersUrl])
      ∧ get_menu (.exn :: restm) auths (some t) = (.ok [] [], some t)
      ∧ get_today_orders (.resp st b :: rest) auths (some t) = (.ok [], some t, [ordersUrl])
      ∧ get_menu (.resp st bm :: restm) auths (some t) = (.ok [] [], some t) := by
  intro t auths rest restm st b bm h200 h401
  refine ⟨by simp [get_today_orders, ensureTok], by simp [get_menu, ensureTok], ?_, ?_⟩
  · simp [get_today_orders, ensureTok, h200, h401]
  · simp [get_menu, ensureTok, h200, h401]

/-- C6 witness: a concrete exception and a concrete 500 status on both
read paths. -/
theorem C6_error_asymmetry_witness :
    get_today_orders [.exn] [] (some "t") = (.raised, some "t", [ordersUrl])
    ∧ get_menu [.exn] [] (some "t") = (.ok [] [], some "t")
    ∧ get_today_orders [.resp 500 ⟨[], none⟩] [] (some "t") = (.ok [], some "t", [ordersUrl])
    ∧ get_menu [.resp 500 ⟨[]⟩] [] (some "t") = (.ok [] [], some "t") :=
  C6_error_asymmetry "t" [] [] [] 500 ⟨[], none⟩ ⟨[]⟩ (by decide) (by decide)

/-- C8: every item returned by a 200 menu fetch is a normalization of a raw
item, and the normalized `available` field is the truthiness-guarded
integer parse of `available_amount` — equal to parsing the raw value:
`"3"` gives 3, null gives null, an unparseable string gives null, and the
parse never raises (it is a total function into `Option`). -/
theorem C8_available_parse :
    ∀ (b : MenuPage) (restm : List MenuResp) (auths : List AuthResp) (t : String)
      (cn : String) (it : MenuItemRaw) (s : String),
      get_menu (.resp 200 b :: restm) auths (some t)
        = (.ok b.results (menuItems b.results), some t)
      ∧ (∀ m ∈ menuItems b.results, ∃ c ∈ b.results, ∃ raw ∈ c.items.getD [],
           m = normItem (c.name.getD "") raw)
      ∧ (normItem cn it).available = it.available_amount.bind pyInt
      ∧ (normItem cn { it with available_amount := some "3" }).available = some 3
      ∧ (normItem cn { it with available_amount := none }).available = none
      ∧ (pyInt s = none → (normItem cn { it with available_amount := some s }).available = none) := by
  intro b restm auths t cn it s
  refine ⟨by simp [get_menu, ensureTok], ?_, ?_, rfl, rfl, ?_⟩
  · intro m hm
    simp only [menuItems, List.mem_flatMap, List.mem_map] at hm
    obtain ⟨c, hc, raw, hraw, rfl⟩ := hm
    exact ⟨c, hc, raw, hraw, rfl⟩
  · cases hv : it.available_amount with
    | none => simp [normItem, hv]
    | some sv =>
      by_cases he : sv = ""
      · subst he; simp [normItem, hv, pyInt_empty]
      · simp [normItem, hv, he]
  · intro hp
    by_cases he : s = ""
    · subst he; simp [normItem]
    · simp [normItem, he, hp]

/-- C8 witness: the unparseable string `"abc"` normalizes to a null
`available`. -/
theorem C8_available_parse_witness :
    (normItem "c"
      { id := none, name := none, description := none, price := none,
        allergens := none, available_amount := some "abc" }).available = none :=
  (C8_available_parse ⟨[]⟩ [] [] "t" "c"
      { id := none, name := none, description := none, price := none,
        allergens := none, available_amount := none } "abc").2.2.2.2.2 rfl

end BessaLunch
